import Mathlib

/-!
Shallow embedding of the delta-neutral funding-rate arbitrage decision engine:
the `FundingRateMonitor` class (spread history, volatility, dynamic threshold,
opportunity detection) and the `AutoTradingBot` class (admission check, position
sizing, position lifecycle sweep, daily reset, CLI configuration merge).
Machine numbers are modelled by `ℚ` where the code only adds, subtracts,
multiplies, divides and compares, and by `ℝ` where `Math.sqrt` is involved.
Timestamps are `Date.getTime()` values in milliseconds, modelled by `ℚ`.
-/

namespace Newbot

/-! Configuration defaults from `config.ts` (`DEFAULTS`). -/

namespace DEFAULTS

def MIN_FUNDING_SPREAD : ℚ := 2 / 10000

def MAX_POSITION_NOTIONAL : ℚ := 10000

def MAX_DAILY_NOTIONAL : ℚ := 50000

def MAX_BASIS_DIVERGENCE : ℚ := 1 / 100

def LEVERAGE : ℚ := 2

def AUTO_CLOSE_INTERVAL : ℚ := 8 * 60 * 60

def STOP_LOSS_SPREAD : ℚ := -(1 / 10000)

def VOLATILITY_LOOKBACK : ℚ := 24 * 60 * 60

def SPREAD_BUFFER_MULTIPLIER : ℚ := 12 / 10

end DEFAULTS

/-- Order side, the `'LONG' | 'SHORT'` string union in the source. -/
inductive Side where
  | LONG
  | SHORT
deriving DecidableEq, Repr

/-! ## FundingRateMonitor (`funding_rate_monitor.ts`) -/

/-- One entry of `spreadHistory` (`SpreadHistoryEntry` in `config.ts`). -/
structure SpreadHistoryEntry where
  timestamp : ℚ
  spread : ℝ

/-- The mutable state of a `FundingRateMonitor` instance: its recorded spread
history and the `useDynamicSpread` flag set at construction. -/
structure MonitorState where
  spreadHistory : List SpreadHistoryEntry
  useDynamicSpread : Bool

/-- A detected opportunity (`Opportunity` in `funding_rate_monitor.ts`). -/
structure Opportunity where
  sideHl : Side
  sideBin : Side
  spread : ℝ
  dynamicThreshold : ℝ

/-- Method `addSpreadToHistory`: push the new sample at time `now`, then drop
every entry strictly older than the lookback window. -/
def addSpreadToHistory (now : ℚ) (spread : ℝ) (s : MonitorState) : MonitorState :=
  let pushed := s.spreadHistory ++ [⟨now, spread⟩]
  let cutoffTime := now - DEFAULTS.VOLATILITY_LOOKBACK * 1000
  { s with spreadHistory := pushed.filter (fun entry => decide (cutoffTime ≤ entry.timestamp)) }

/-- Method `calculateVolatility`: `0` for fewer than two samples, otherwise the
square root of the mean squared deviation from the mean (divisor is the sample
count, exactly as the source divides by `spreads.length`). -/
noncomputable def calculateVolatility (s : MonitorState) : ℝ :=
  if s.spreadHistory.length < 2 then 0
  else
    let spreads := s.spreadHistory.map (fun entry => entry.spread)
    let mean := spreads.foldl (fun sum val => sum + val) (0 : ℝ) / spreads.length
    let squaredDiffs := spreads.map (fun val => (val - mean) ^ 2)
    let variance := squaredDiffs.foldl (fun sum val => sum + val) (0 : ℝ) / spreads.length
    Real.sqrt variance

/-- The dynamic threshold as a function of an already-computed volatility value:
`baseThreshold + volatility * SPREAD_BUFFER_MULTIPLIER` (the body of
`calculateDynamicThreshold` after its call to `calculateVolatility`). -/
noncomputable def dynamicThresholdOfVol (baseThreshold vol : ℝ) : ℝ :=
  baseThreshold + vol * (DEFAULTS.SPREAD_BUFFER_MULTIPLIER : ℝ)

/-- Method `calculateDynamicThreshold`. -/
noncomputable def calculateDynamicThreshold (baseThreshold : ℝ) (s : MonitorState) : ℝ :=
  dynamicThresholdOfVol baseThreshold (calculateVolatility s)

/-- Method `detectOpportunity`. The two funding rates are parameters (the
source obtains them from `getFundingRates`, an I/O call that yields `0` for an
unavailable or failed reading). Returns the detection result together with the
updated monitor state; the source mutates `this.spreadHistory` in place. -/
noncomputable def detectOpportunity (threshold : ℝ) (now : ℚ) (hlRate binRate : ℝ)
    (s : MonitorState) : Option Opportunity × MonitorState :=
  if hlRate = 0 ∨ binRate = 0 then (none, s)
  else
    let spread := hlRate - binRate
    let s' := addSpreadToHistory now spread s
    let dynamicThreshold :=
      if s'.useDynamicSpread then calculateDynamicThreshold threshold s' else threshold
    if |spread| > dynamicThreshold then
      if spread > 0 then (some ⟨Side.LONG, Side.SHORT, spread, dynamicThreshold⟩, s')
      else (some ⟨Side.SHORT, Side.LONG, spread, dynamicThreshold⟩, s')
    else (none, s')

/-- Method `getCurrentVolatility`. -/
noncomputable def getCurrentVolatility (s : MonitorState) : ℝ :=
  calculateVolatility s

/-- Textbook population standard deviation of a list of samples, written from
the specification (square root of the mean squared deviation from the mean,
divisor the sample count, not the count minus one), for comparison with
`calculateVolatility`. -/
noncomputable def populationStdDev (l : List ℝ) : ℝ :=
  Real.sqrt ((l.map (fun x => (x - l.sum / l.length) ^ 2)).sum / l.length)

/-! ## AutoTradingBot (`auto_trading_bot.ts`) -/

/-- Position status, the `'active' | 'closed'` string union. -/
inductive PStatus where
  | active
  | closed
deriving DecidableEq, Repr

/-- The `Position` interface of `config.ts`, with the field names the bot's
`executeFundingArb` constructor assigns. There is no `closeReason` field. -/
structure Position where
  id : String
  symbol : String
  apexSide : Side
  coinbaseSide : Side
  notional : ℚ
  leverage : ℚ
  entryTime : ℚ
  apexEntryPrice : ℚ
  coinbaseEntryPrice : ℚ
  apexFundingRate : ℚ
  coinbaseFundingRate : ℚ
  spreadAtEntry : ℚ
  status : PStatus
  closeTime : Option ℚ
deriving DecidableEq, Repr

/-- The opportunity record `executeFundingArb` receives. -/
structure ArbOpportunity where
  sideApex : Side
  sideCoinbase : Side
  spread : ℚ
  dynamicThreshold : ℚ
deriving DecidableEq, Repr

/-- The mutable fields of an `AutoTradingBot` instance. -/
structure BotState where
  minFundingSpread : ℚ
  maxPositionNotional : ℚ
  maxDailyNotional : ℚ
  leverage : ℚ
  useDynamicSpread : Bool
  activePositions : List Position
  dailyNotionalUsed : ℚ
  lastDailyReset : ℚ
deriving DecidableEq, Repr

/-- Method `canOpenPosition`: remaining daily capacity must cover a full
`maxPositionNotional` sized position. -/
def canOpenPosition (s : BotState) : Bool :=
  decide (s.maxPositionNotional ≤ s.maxDailyNotional - s.dailyNotionalUsed)

/-- Method `calculatePositionSize`: `min(maxPositionNotional, remainingNotional)`. -/
def calculatePositionSize (s : BotState) : ℚ :=
  min s.maxPositionNotional (s.maxDailyNotional - s.dailyNotionalUsed)

/-- Method `executeFundingArb` (its state mutations): size the position, append
the new active `Position` record, and add the size to `dailyNotionalUsed`.
`now` stands for both `Date.now()` and `new Date()` on the same tick. -/
def executeFundingArb (o : ArbOpportunity) (now : ℚ) (s : BotState) : BotState :=
  let positionSize := calculatePositionSize s
  let position : Position :=
    { id := "pos-" ++ toString now
      symbol := "BTCUSDT"
      apexSide := o.sideApex
      coinbaseSide := o.sideCoinbase
      notional := positionSize
      leverage := s.leverage
      entryTime := now
      apexEntryPrice := 0
      coinbaseEntryPrice := 0
      apexFundingRate := 0
      coinbaseFundingRate := 0
      spreadAtEntry := o.spread
      status := PStatus.active
      closeTime := none }
  { s with activePositions := s.activePositions ++ [position]
           dailyNotionalUsed := s.dailyNotionalUsed + positionSize }

/-- One opportunity-check tick of `checkFundingOpportunity` after detection:
if an opportunity was detected and `canOpenPosition` holds, execute the trade,
otherwise leave the state unchanged. -/
def openTick (o : Option ArbOpportunity) (now : ℚ) (s : BotState) : BotState :=
  match o with
  | none => s
  | some opp => if canOpenPosition s then executeFundingArb opp now s else s

/-- A sequence of opportunity-check ticks, each an optional detected
opportunity together with its tick time. -/
def runOpens (ticks : List (Option ArbOpportunity × ℚ)) (s : BotState) : BotState :=
  ticks.foldl (fun st t => openTick t.1 t.2 st) s

/-- Method `resetDailyLimits`: zero the daily usage and move the reset clock
exactly when at least 24 hours have elapsed. -/
def resetDailyLimits (now : ℚ) (s : BotState) : BotState :=
  let hoursSinceReset := (now - s.lastDailyReset) / (1000 * 60 * 60)
  if 24 ≤ hoursSinceReset then
    { s with dailyNotionalUsed := 0, lastDailyReset := now }
  else s

/-- Method `closePosition` (its state mutations): mark the position closed and
record the close time. The `reason` argument is only written to the console;
the `Position` record has no field for it. -/
def closePosition (now : ℚ) (p : Position) : Position :=
  { p with status := PStatus.closed, closeTime := some now }

/-- One iteration of the `monitorPositions` loop body for a single position:
skip non-active positions, close on the age condition with reason
`auto-close-timeout`, otherwise leave unchanged (the basis-divergence check is
an explicit TODO in the source and the stop-loss threshold is never consulted).
Returns the resulting position and the `(id, reason)` pairs logged. -/
def sweepStep (now : ℚ) (p : Position) : Position × List (String × String) :=
  if p.status ≠ PStatus.active then (p, [])
  else if DEFAULTS.AUTO_CLOSE_INTERVAL ≤ (now - p.entryTime) / 1000 then
    (closePosition now p, [(p.id, "auto-close-timeout")])
  else (p, [])

/-- Method `monitorPositions`: the per-tick sweep over `activePositions`,
returning the updated state and the close log. -/
def monitorPositions (now : ℚ) (s : BotState) : BotState × List (String × String) :=
  let swept := s.activePositions.map (sweepStep now)
  ({ s with activePositions := swept.map Prod.fst },
    swept.foldr (fun pr acc => pr.2 ++ acc) [])

/-! ## CLI configuration (`config.ts` `parseCliArgs` and the constructor merge) -/

/-- A JavaScript number as it matters here: a rational value or `NaN`
(`parseFloat` on non-numeric input). -/
inductive JsNum where
  | num (val : ℚ)
  | nan
deriving DecidableEq, Repr

/-- Numeric value of a digit list in base 10. -/
def digitsVal (l : List Char) : ℕ :=
  l.foldl (fun acc c => acc * 10 + (c.toNat - 48)) 0

/-- Model of JavaScript `parseFloat` on the plain decimal literals the CLI
takes: an optional sign, then digits with an optional decimal fraction; any
string carrying no leading digits at all parses to `NaN`. (Exponents and
whitespace skipping are not modelled; no CLI value in scope uses them.) -/
def parseFloatJs (str : String) : JsNum :=
  let afterSign : ℚ × List Char :=
    match str.data with
    | '-' :: t => (-1, t)
    | '+' :: t => (1, t)
    | t => (1, t)
  let intPart := afterSign.2.takeWhile Char.isDigit
  let rest := afterSign.2.dropWhile Char.isDigit
  let fracPart :=
    match rest with
    | '.' :: t => t.takeWhile Char.isDigit
    | _ => []
  if intPart.isEmpty && fracPart.isEmpty then JsNum.nan
  else
    JsNum.num (afterSign.1 *
      ((digitsVal intPart : ℚ) + (digitsVal fracPart : ℚ) / (10 : ℚ) ^ fracPart.length))

/-- Model of JavaScript `parseInt` on plain decimal literals: the integer part
only. -/
def parseIntJs (str : String) : JsNum :=
  let afterSign : ℚ × List Char :=
    match str.data with
    | '-' :: t => (-1, t)
    | '+' :: t => (1, t)
    | t => (1, t)
  let intPart := afterSign.2.takeWhile Char.isDigit
  if intPart.isEmpty then JsNum.nan
  else JsNum.num (afterSign.1 * (digitsVal intPart : ℚ))

/-- The `StrategyConfig` interface: every field optional. -/
structure StrategyConfig where
  minSpread : Option JsNum := none
  maxPosition : Option JsNum := none
  maxDailyNotional : Option JsNum := none
  leverage : Option JsNum := none
  dynamicSpread : Option Bool := none
  backtestDays : Option JsNum := none
deriving DecidableEq, Repr

/-- The loop of `parseCliArgs`. A value-taking flag consumes its argument only
when one is present and truthy (a non-empty string); otherwise the loop simply
advances, exactly as `args[i + 1]` failing the `&&` does in the source. -/
def parseCliArgsLoop : List String → StrategyConfig → StrategyConfig
  | [], c => c
  | [arg], c =>
    if arg = "--dynamic-spread" then { c with dynamicSpread := some true } else c
  | arg :: v :: rest', c =>
    if arg = "--min-spread" then
      if v ≠ "" then parseCliArgsLoop rest' { c with minSpread := some (parseFloatJs v) }
      else parseCliArgsLoop (v :: rest') c
    else if arg = "--max-position" then
      if v ≠ "" then parseCliArgsLoop rest' { c with maxPosition := some (parseFloatJs v) }
      else parseCliArgsLoop (v :: rest') c
    else if arg = "--max-daily-notional" then
      if v ≠ "" then parseCliArgsLoop rest' { c with maxDailyNotional := some (parseFloatJs v) }
      else parseCliArgsLoop (v :: rest') c
    else if arg = "--leverage" then
      if v ≠ "" then parseCliArgsLoop rest' { c with leverage := some (parseFloatJs v) }
      else parseCliArgsLoop (v :: rest') c
    else if arg = "--dynamic-spread" then
      parseCliArgsLoop (v :: rest') { c with dynamicSpread := some true }
    else if arg = "--backtest" then
      if v ≠ "" then parseCliArgsLoop rest' { c with backtestDays := some (parseIntJs v) }
      else parseCliArgsLoop (v :: rest') c
    else parseCliArgsLoop (v :: rest') c

/-- Function `parseCliArgs`. -/
def parseCliArgs (args : List String) : StrategyConfig :=
  parseCliArgsLoop args {}

/-- The JavaScript `x || d` merge for an optional numeric override: the
override wins only when present and truthy; `0`, `NaN` and absence all fall
back to the default. -/
def jsOrNum (x : Option JsNum) (d : ℚ) : ℚ :=
  match x with
  | some (JsNum.num v) => if v = 0 then d else v
  | some JsNum.nan => d
  | none => d

/-- The JavaScript `x || false` merge for the boolean override. -/
def jsOrBool (x : Option Bool) : Bool :=
  match x with
  | some b => b
  | none => false

/-- The `AutoTradingBot` constructor's configuration merge: each effective
parameter is the CLI override merged with the built-in default through `||`,
and the bot starts with no positions and zero daily usage. `now` is the
construction time (`new Date()` for `lastDailyReset`). -/
def mkBotState (config : StrategyConfig) (now : ℚ) : BotState :=
  { minFundingSpread := jsOrNum config.minSpread DEFAULTS.MIN_FUNDING_SPREAD
    maxPositionNotional := jsOrNum config.maxPosition DEFAULTS.MAX_POSITION_NOTIONAL
    maxDailyNotional := jsOrNum config.maxDailyNotional DEFAULTS.MAX_DAILY_NOTIONAL
    leverage := jsOrNum config.leverage DEFAULTS.LEVERAGE
    useDynamicSpread := jsOrBool config.dynamicSpread
    activePositions := []
    dailyNotionalUsed := 0
    lastDailyReset := now }

/-! ## Concrete fixtures used by witnesses and counterexamples -/

/-- A bot state with the default limits, no positions, and some daily usage. -/
def sBase : BotState :=
  { minFundingSpread := 2 / 10000
    maxPositionNotional := 10000
    maxDailyNotional := 50000
    leverage := 2
    useDynamicSpread := false
    activePositions := []
    dailyNotionalUsed := 1234
    lastDailyReset := 0 }

/-- A freshly constructed bot state: default limits, zero daily usage. -/
def s0 : BotState :=
  { sBase with dailyNotionalUsed := 0 }

/-- A monitor with an empty history and the static threshold policy. -/
def mEmpty : MonitorState :=
  { spreadHistory := [], useDynamicSpread := false }

/-- A monitor holding exactly two spread samples. -/
def m2 : MonitorState :=
  { spreadHistory := [⟨0, 1⟩, ⟨1, 3⟩], useDynamicSpread := false }

/-- A sample detected opportunity. -/
def oEx : ArbOpportunity :=
  { sideApex := Side.LONG, sideCoinbase := Side.SHORT
    spread := 3 / 10000, dynamicThreshold := 2 / 10000 }

/-- Six opportunity ticks, all carrying `oEx` at time 0. -/
def ticks6 : List (Option ArbOpportunity × ℚ) :=
  List.replicate 6 (some oEx, 0)

/-! ## Theorems -/

/-- Claim C10: merging CLI overrides with the defaults goes through the
JavaScript `||` operator, so an override that parses to `0` (here
`--min-spread 0`, `--max-position 0` and `--leverage 0`, which `parseCliArgs`
does record as the value `0`) is falsy and the engine silently keeps the
built-in default — which is itself nonzero — instead of the supplied zero. -/
theorem zero_override_uses_default :
    (parseCliArgs ["--min-spread", "0"]).minSpread = some (JsNum.num 0)
    ∧ (mkBotState (parseCliArgs ["--min-spread", "0"]) 0).minFundingSpread =
        DEFAULTS.MIN_FUNDING_SPREAD
    ∧ (mkBotState (parseCliArgs ["--max-position", "0"]) 0).maxPositionNotional =
        DEFAULTS.MAX_POSITION_NOTIONAL
    ∧ (mkBotState (parseCliArgs ["--leverage", "0"]) 0).leverage = DEFAULTS.LEVERAGE
    ∧ DEFAULTS.MIN_FUNDING_SPREAD ≠ 0
    ∧ DEFAULTS.MAX_POSITION_NOTIONAL ≠ 0
    ∧ DEFAULTS.LEVERAGE ≠ 0 := by
  refine ⟨?_, ?_, ?_, ?_, ?_, ?_, ?_⟩ <;>
    simp [parseCliArgs, parseCliArgsLoop, parseFloatJs, digitsVal, mkBotState, jsOrNum,
      DEFAULTS.MIN_FUNDING_SPREAD, DEFAULTS.MAX_POSITION_NOTIONAL, DEFAULTS.LEVERAGE]

/-- Claim C7: `resetDailyLimits` zeroes `dailyNotionalUsed` and moves
`lastDailyReset` to `now` exactly when 24 hours (86,400,000 ms) have elapsed
since the last reset, and leaves the whole state untouched otherwise. -/
theorem resetDailyLimits_iff_24h (now : ℚ) (s : BotState) :
    (86400000 ≤ now - s.lastDailyReset →
      resetDailyLimits now s = { s with dailyNotionalUsed := 0, lastDailyReset := now })
    ∧ (now - s.lastDailyReset < 86400000 → resetDailyLimits now s = s) := by
  constructor
  · intro h
    have hc : (24 : ℚ) ≤ (now - s.lastDailyReset) / (1000 * 60 * 60) := by
      rw [le_div_iff₀ (by norm_num : (0 : ℚ) < 1000 * 60 * 60)]
      linarith
    simp [resetDailyLimits, hc]
  · intro h
    have hc : ¬ ((24 : ℚ) ≤ (now - s.lastDailyReset) / (1000 * 60 * 60)) := by
      rw [not_le, div_lt_iff₀ (by norm_num : (0 : ℚ) < 1000 * 60 * 60)]
      linarith
    simp [resetDailyLimits, hc]

/-- Witness for C7: at exactly 24 hours the usage 1234 is zeroed and the clock
moves; at 100 ms nothing changes. -/
theorem resetDailyLimits_iff_24h_witness :
    resetDailyLimits 86400000 sBase =
      { sBase with dailyNotionalUsed := 0, lastDailyReset := 86400000 }
    ∧ resetDailyLimits 100 sBase = sBase :=
  ⟨(resetDailyLimits_iff_24h 86400000 sBase).1 (by norm_num [sBase]),
   (resetDailyLimits_iff_24h 100 sBase).2 (by norm_num [sBase])⟩

/-- Claim C5: a funding rate of exactly `0` is the sentinel for an unavailable
reading; `detectOpportunity` returns `none` whenever either rate is `0`,
whatever the other rate is. -/
theorem detect_zero_sentinel (threshold : ℝ) (now : ℚ) (x : ℝ) (s : MonitorState) :
    (detectOpportunity threshold now 0 x s).1 = none
    ∧ (detectOpportunity threshold now x 0 s).1 = none := by
  constructor
  · unfold detectOpportunity
    rw [if_pos (Or.inl rfl)]
  · unfold detectOpportunity
    rw [if_pos (Or.inr rfl)]

/-- Claim C9: when `detectOpportunity` rejects because either rate is the `0`
sentinel (including a failed fetch, which yields `0` for both rates), it
returns `none` and the monitor state — in particular the spread history — is
exactly the input state: no sample is recorded and no pruning happens. -/
theorem detect_sentinel_preserves_history (threshold : ℝ) (now : ℚ) (a b : ℝ)
    (s : MonitorState) (h : a = 0 ∨ b = 0) :
    (detectOpportunity threshold now a b s).1 = none
    ∧ (detectOpportunity threshold now a b s).2 = s := by
  unfold detectOpportunity
  rw [if_pos h]
  exact ⟨rfl, rfl⟩

/-- Witness for C9 at the concrete rates `(0, 5)` on the empty monitor. -/
theorem detect_sentinel_preserves_history_witness :
    (detectOpportunity 1 0 0 5 mEmpty).1 = none
    ∧ (detectOpportunity 1 0 0 5 mEmpty).2 = mEmpty :=
  detect_sentinel_preserves_history 1 0 0 5 mEmpty (Or.inl rfl)

/-- An opportunity tick never changes the configured daily cap. -/
lemma openTick_maxDaily (o : Option ArbOpportunity) (now : ℚ) (s : BotState) :
    (openTick o now s).maxDailyNotional = s.maxDailyNotional := by
  cases o with
  | none => rfl
  | some opp =>
    show (if canOpenPosition s = true then executeFundingArb opp now s else s).maxDailyNotional
        = s.maxDailyNotional
    split
    · rfl
    · rfl

/-- An opportunity tick keeps the daily usage within the daily cap: an
accepted open adds `min maxPositionNotional (cap - used) ≤ cap - used`. -/
lemma openTick_used_le (o : Option ArbOpportunity) (now : ℚ) (s : BotState)
    (h : s.dailyNotionalUsed ≤ s.maxDailyNotional) :
    (openTick o now s).dailyNotionalUsed ≤ s.maxDailyNotional := by
  cases o with
  | none => exact h
  | some opp =>
    show (if canOpenPosition s = true then executeFundingArb opp now s else s).dailyNotionalUsed
        ≤ s.maxDailyNotional
    split
    · show s.dailyNotionalUsed + calculatePositionSize s ≤ s.maxDailyNotional
      have hmin : calculatePositionSize s ≤ s.maxDailyNotional - s.dailyNotionalUsed :=
        min_le_right _ _
      linarith
    · exact h

/-- Claim C1: over any sequence of opportunity ticks — each open gated by
`canOpenPosition` and sized by `calculatePositionSize`, as in
`checkFundingOpportunity` — the running `dailyNotionalUsed` never exceeds
`maxDailyNotional` (which the ticks never change), and every accepted
position is appended with `notional` equal to
`min maxPositionNotional (maxDailyNotional - dailyNotionalUsed)` evaluated at
the accepting state. -/
theorem admission_conservation (ticks : List (Option ArbOpportunity × ℚ)) (s : BotState)
    (h : s.dailyNotionalUsed ≤ s.maxDailyNotional) :
    (runOpens ticks s).maxDailyNotional = s.maxDailyNotional
    ∧ (runOpens ticks s).dailyNotionalUsed ≤ s.maxDailyNotional
    ∧ ∀ (o : ArbOpportunity) (now : ℚ) (s' : BotState),
        ((executeFundingArb o now s').activePositions.getLast?).map Position.notional =
          some (min s'.maxPositionNotional (s'.maxDailyNotional - s'.dailyNotionalUsed)) := by
  have main : ∀ (ts : List (Option ArbOpportunity × ℚ)) (st : BotState),
      st.dailyNotionalUsed ≤ st.maxDailyNotional →
      (runOpens ts st).maxDailyNotional = st.maxDailyNotional
      ∧ (runOpens ts st).dailyNotionalUsed ≤ st.maxDailyNotional := by
    intro ts
    induction ts with
    | nil => exact fun st hst => ⟨rfl, hst⟩
    | cons t tl ih =>
      intro st hst
      have h1 := openTick_maxDaily t.1 t.2 st
      have h2 := openTick_used_le t.1 t.2 st hst
      have h2' : (openTick t.1 t.2 st).dailyNotionalUsed ≤
          (openTick t.1 t.2 st).maxDailyNotional := by rw [h1]; exact h2
      have hrun : runOpens (t :: tl) st = runOpens tl (openTick t.1 t.2 st) := rfl
      rcases ih (openTick t.1 t.2 st) h2' with ⟨ha, hb⟩
      refine ⟨?_, ?_⟩
      · rw [hrun, ha, h1]
      · rw [hrun]
        calc (runOpens tl (openTick t.1 t.2 st)).dailyNotionalUsed
            ≤ (openTick t.1 t.2 st).maxDailyNotional := hb
          _ = st.maxDailyNotional := h1
  rcases main ticks s h with ⟨ha, hb⟩
  refine ⟨ha, hb, ?_⟩
  intro o now s'
  unfold executeFundingArb
  rw [List.getLast?_concat, Option.map_some']
  rfl

/-- Witness for C1: six successive ticks on the freshly constructed default
state (cap 50000, per-trade 10000) stay within the cap, and a single accepted
open on that state records notional `min 10000 (50000 - 0)`. -/
theorem admission_conservation_witness :
    (runOpens ticks6 s0).dailyNotionalUsed ≤ s0.maxDailyNotional
    ∧ ((executeFundingArb oEx 0 s0).activePositions.getLast?).map Position.notional =
        some (min s0.maxPositionNotional (s0.maxDailyNotional - s0.dailyNotionalUsed)) :=
  ⟨(admission_conservation ticks6 s0 (by norm_num [s0, sBase])).2.1,
   (admission_conservation ticks6 s0 (by norm_num [s0, sBase])).2.2 oEx 0 s0⟩

/-- The timeout condition `monitorPositions` closes on. -/
def timeoutDue (now : ℚ) (p : Position) : Prop :=
  p.status = PStatus.active ∧ DEFAULTS.AUTO_CLOSE_INTERVAL ≤ (now - p.entryTime) / 1000

instance (now : ℚ) (p : Position) : Decidable (timeoutDue now p) := by
  unfold timeoutDue; infer_instance

/-- Resulting position of one sweep iteration: closed exactly on the timeout
condition. -/
lemma sweepStep_fst (now : ℚ) (p : Position) :
    (sweepStep now p).1 = if timeoutDue now p then closePosition now p else p := by
  unfold sweepStep timeoutDue
  by_cases h1 : p.status = PStatus.active
  · by_cases h2 : DEFAULTS.AUTO_CLOSE_INTERVAL ≤ (now - p.entryTime) / 1000
    · simp [h1, h2]
    · simp [h1, h2]
  · simp [h1]

/-- Log entries of one sweep iteration: a single `auto-close-timeout` pair
exactly on the timeout condition. -/
lemma sweepStep_snd (now : ℚ) (p : Position) :
    (sweepStep now p).2 = if timeoutDue now p then [(p.id, "auto-close-timeout")] else [] := by
  unfold sweepStep timeoutDue
  by_cases h1 : p.status = PStatus.active
  · by_cases h2 : DEFAULTS.AUTO_CLOSE_INTERVAL ≤ (now - p.entryTime) / 1000
    · simp [h1, h2]
    · simp [h1, h2]
  · simp [h1]

/-- The close log of a sweep over a position list. -/
lemma sweep_log (now : ℚ) (l : List Position) :
    (l.map (sweepStep now)).foldr (fun pr acc => pr.2 ++ acc) [] =
      (l.filter (fun p => decide (timeoutDue now p))).map
        (fun p => (p.id, "auto-close-timeout")) := by
  induction l with
  | nil => rfl
  | cons p t ih =>
    simp only [List.map_cons, List.foldr_cons, ih, List.filter_cons]
    rw [sweepStep_snd]
    by_cases h : timeoutDue now p
    · simp [h]
    · simp [h]

/-- Claim C2 (amended): the per-tick sweep closes exactly the active positions
whose age is at least `AUTO_CLOSE_INTERVAL` — marking them closed with
`closeTime := now` — and for each of them invokes the close routine with
reason `auto-close-timeout` (which is only logged: `Position` carries no
`closeReason` field). Everything else, in particular positions in deep basis
divergence or past the stop-loss spread, is left untouched: those conditions
are not inputs of the sweep at all. -/
theorem sweep_timeout_only (now : ℚ) (s : BotState) :
    (monitorPositions now s).1.activePositions =
      s.activePositions.map (fun p =>
        if timeoutDue now p then { p with status := PStatus.closed, closeTime := some now }
        else p)
    ∧ (monitorPositions now s).2 =
        (s.activePositions.filter (fun p => decide (timeoutDue now p))).map
          (fun p => (p.id, "auto-close-timeout")) := by
  constructor
  · show (s.activePositions.map (sweepStep now)).map Prod.fst = _
    rw [List.map_map]
    exact List.map_congr_left fun p _ => sweepStep_fst now p
  · exact sweep_log now s.activePositions

/-- A young active position: entry at time 0, entry spread 0.0003. -/
def pYoung : Position :=
  { id := "p1"
    symbol := "BTCUSDT"
    apexSide := Side.LONG
    coinbaseSide := Side.SHORT
    notional := 10000
    leverage := 2
    entryTime := 0
    apexEntryPrice := 0
    coinbaseEntryPrice := 0
    apexFundingRate := 0
    coinbaseFundingRate := 0
    spreadAtEntry := 3 / 10000
    status := PStatus.active
    closeTime := none }

/-- The bot state holding only `pYoung`. -/
def sSweep : BotState :=
  { s0 with activePositions := [pYoung] }

/-- Claim C2 counterexample: at tick time 1,000,000 ms the active position
`pYoung` (age 1000 s) sits in a basis divergence of 0.5 — fifty times
`MAX_BASIS_DIVERGENCE` — and the realized spread −0.05 has moved against its
entry spread by far more than `STOP_LOSS_SPREAD`, so the claim requires the
sweep to close it with reason `basis-divergence` or `stop-loss`; but the sweep
takes no price or spread inputs, leaves the position active, and logs no close
at all. -/
theorem sweep_misses_divergence_and_stoploss :
    DEFAULTS.MAX_BASIS_DIVERGENCE < (1 : ℚ) / 2
    ∧ (-5 : ℚ) / 100 - pYoung.spreadAtEntry < DEFAULTS.STOP_LOSS_SPREAD
    ∧ (monitorPositions 1000000 sSweep).1.activePositions.map Position.status =
        [PStatus.active]
    ∧ (monitorPositions 1000000 sSweep).2 = [] := by
  refine ⟨?_, ?_, ?_, ?_⟩ <;>
    norm_num [DEFAULTS.MAX_BASIS_DIVERGENCE, DEFAULTS.STOP_LOSS_SPREAD,
      DEFAULTS.AUTO_CLOSE_INTERVAL, monitorPositions, sweepStep, sSweep, s0, sBase, pYoung]

/-- Computed volatility is never negative: it is `0` or a square root. -/
lemma calculateVolatility_nonneg (s : MonitorState) : 0 ≤ calculateVolatility s := by
  unfold calculateVolatility
  split
  · exact le_refl 0
  · exact Real.sqrt_nonneg _

/-- Claim C6: for a fixed base threshold, the dynamic effective threshold is
at least the static base threshold (the volatility term is nonnegative and
the buffer multiplier positive), and as a function of the computed volatility
it is strictly increasing. -/
theorem dynamic_threshold_monotone (baseThreshold : ℝ) (s : MonitorState) :
    baseThreshold ≤ calculateDynamicThreshold baseThreshold s
    ∧ ∀ v₁ v₂ : ℝ, v₁ < v₂ →
        dynamicThresholdOfVol baseThreshold v₁ < dynamicThresholdOfVol baseThreshold v₂ := by
  have hmul : (0 : ℝ) < (DEFAULTS.SPREAD_BUFFER_MULTIPLIER : ℝ) := by
    norm_num [DEFAULTS.SPREAD_BUFFER_MULTIPLIER]
  constructor
  · have hvol := calculateVolatility_nonneg s
    unfold calculateDynamicThreshold dynamicThresholdOfVol
    nlinarith
  · intro v₁ v₂ hv
    unfold dynamicThresholdOfVol
    nlinarith

/-- Witness for C6 at volatilities `0 < 1` over base threshold `0`. -/
theorem dynamic_threshold_monotone_witness :
    dynamicThresholdOfVol 0 0 < dynamicThresholdOfVol 0 1 :=
  (dynamic_threshold_monotone 0 mEmpty).2 0 1 zero_lt_one

/-- Claim C8: `calculateVolatility` returns `0` whenever fewer than two
samples are retained, and otherwise the population standard deviation
(divisor the sample count, not the count minus one) of all retained spread
values. -/
theorem volatility_is_population_std (s : MonitorState) :
    (s.spreadHistory.length < 2 → calculateVolatility s = 0)
    ∧ (2 ≤ s.spreadHistory.length →
        calculateVolatility s =
          populationStdDev (s.spreadHistory.map SpreadHistoryEntry.spread)) := by
  constructor
  · intro h
    unfold calculateVolatility
    rw [if_pos h]
  · intro h
    unfold calculateVolatility populationStdDev
    rw [if_neg (by omega)]
    simp only [List.length_map, ← List.sum_eq_foldl]

/-- Witness for C8: the empty history yields `0`; a two-sample history yields
the population standard deviation of its spreads. -/
theorem volatility_is_population_std_witness :
    calculateVolatility mEmpty = 0
    ∧ calculateVolatility m2 = populationStdDev (m2.spreadHistory.map SpreadHistoryEntry.spread) :=
  ⟨(volatility_is_population_std mEmpty).1 (by norm_num [mEmpty]),
   (volatility_is_population_std m2).2 (by norm_num [m2])⟩

/-- The spread history of the specification's worked example, entered at
successive timestamps. -/
noncomputable def exHistory : List SpreadHistoryEntry :=
  [⟨0, 2 / 10000⟩, ⟨1, 3 / 10000⟩, ⟨2, 1 / 10000⟩, ⟨3, 4 / 10000⟩, ⟨4, 2 / 10000⟩,
   ⟨5, 3 / 10000⟩]

/-- A monitor holding exactly the example history, dynamic policy on. -/
noncomputable def mEx : MonitorState :=
  { spreadHistory := exHistory, useDynamicSpread := true }

/-- On the example history, the code's variance is exactly `11 / 1200000000`
(mean `0.00025`, squared deviations summing to `5.5e-8`, divided by 6). -/
lemma volatility_mEx : calculateVolatility mEx = Real.sqrt (11 / 1200000000) := by
  simp only [calculateVolatility, mEx, exHistory]
  norm_num

/-- Bracketing of the example volatility: between 0.00009574 and 0.00009575. -/
lemma volatility_mEx_bounds :
    (9574 : ℝ) / 100000000 < calculateVolatility mEx
    ∧ calculateVolatility mEx < (9575 : ℝ) / 100000000 := by
  rw [volatility_mEx]
  constructor
  · rw [Real.lt_sqrt (by norm_num)]
    norm_num
  · rw [Real.sqrt_lt' (by norm_num)]
    norm_num

/-- Claim C3 counterexample: on the example history the code's volatility is
below `0.000096` — nowhere near the claimed `0.00010897` — and with base
threshold `0.0002` the dynamic threshold is below `0.000316`, not the claimed
`0.0003308`. -/
theorem example_volatility_refutes_claim :
    calculateVolatility mEx < (96 : ℝ) / 1000000
    ∧ calculateDynamicThreshold (2 / 10000) mEx < (316 : ℝ) / 1000000 := by
  have h := volatility_mEx_bounds
  have hmul : (DEFAULTS.SPREAD_BUFFER_MULTIPLIER : ℝ) = 12 / 10 := by
    norm_num [DEFAULTS.SPREAD_BUFFER_MULTIPLIER]
  constructor
  · linarith [h.2]
  · unfold calculateDynamicThreshold dynamicThresholdOfVol
    rw [hmul]
    nlinarith [h.2]

/-- Claim C3 (amended): on the example history the code computes volatility
`√(11 / 1200000000) ≈ 0.00009574` (population standard deviation with mean
`0.00025` and variance `5.5e-8 / 6`), and with base threshold `0.0002` and
buffer multiplier `1.2` the dynamic threshold is
`0.0002 + 1.2 × 0.00009574… ≈ 0.00031489`. -/
theorem example_volatility_value :
    calculateVolatility mEx = Real.sqrt (11 / 1200000000)
    ∧ (9574 : ℝ) / 100000000 < calculateVolatility mEx
    ∧ calculateVolatility mEx < (9575 : ℝ) / 100000000
    ∧ (31488 : ℝ) / 100000000 < calculateDynamicThreshold (2 / 10000) mEx
    ∧ calculateDynamicThreshold (2 / 10000) mEx < (31490 : ℝ) / 100000000 := by
  have h := volatility_mEx_bounds
  have hmul : (DEFAULTS.SPREAD_BUFFER_MULTIPLIER : ℝ) = 12 / 10 := by
    norm_num [DEFAULTS.SPREAD_BUFFER_MULTIPLIER]
  refine ⟨volatility_mEx, h.1, h.2, ?_, ?_⟩ <;>
  · unfold calculateDynamicThreshold dynamicThresholdOfVol
    rw [hmul]
    nlinarith [h.1, h.2]

/-- Claim C4: sign correctness of detection — whenever `detectOpportunity`
returns an opportunity (it returns `none` below the effective threshold or on
a zero sentinel), a higher rate on venue A (`hlRate`) makes A the long venue
and B the short venue, and a higher rate on venue B makes B the long venue. -/
theorem detect_sign_correctness (threshold : ℝ) (now : ℚ) (a b : ℝ) (s : MonitorState) :
    (b < a → ∀ o : Opportunity, (detectOpportunity threshold now a b s).1 = some o →
        o.sideHl = Side.LONG ∧ o.sideBin = Side.SHORT)
    ∧ (a < b → ∀ o : Opportunity, (detectOpportunity threshold now a b s).1 = some o →
        o.sideHl = Side.SHORT ∧ o.sideBin = Side.LONG) := by
  by_cases hz : a = 0 ∨ b = 0
  · constructor <;>
      (intro _ o ho
       unfold detectOpportunity at ho
       rw [if_pos hz] at ho
       exact Option.noConfusion ho)
  · constructor
    · intro hba o ho
      unfold detectOpportunity at ho
      rw [if_neg hz] at ho
      simp only [] at ho
      split at ho <;> try split at ho
      all_goals try split at ho
      all_goals dsimp only at ho
      all_goals
        first
          | exact Option.noConfusion ho
          | (injection ho with h
             subst h
             exact ⟨rfl, rfl⟩)
          | (rename_i hns
             injection ho with h
             exact absurd (show (0 : ℝ) < a - b by linarith) hns)
    · intro hab o ho
      unfold detectOpportunity at ho
      rw [if_neg hz] at ho
      simp only [] at ho
      split at ho <;> try split at ho
      all_goals try split at ho
      all_goals dsimp only at ho
      all_goals
        first
          | exact Option.noConfusion ho
          | (injection ho with h
             subst h
             exact ⟨rfl, rfl⟩)
          | (rename_i hns
             exact absurd hns (by simp only [gt_iff_lt, sub_pos] at *; linarith))

/-- Witness for C4 at the concrete rates `(5, 2)` and `(2, 5)` with threshold
`1` on the empty monitor: the detector does return an opportunity, long on the
higher-rate venue each time. -/
theorem detect_sign_correctness_witness :
    (detectOpportunity 1 0 5 2 mEmpty).1.map Opportunity.sideHl = some Side.LONG
    ∧ (detectOpportunity 1 0 2 5 mEmpty).1.map Opportunity.sideBin = some Side.LONG := by
  have e1 : (detectOpportunity 1 0 5 2 mEmpty).1 = some ⟨Side.LONG, Side.SHORT, 3, 1⟩ := by
    norm_num [detectOpportunity, mEmpty, addSpreadToHistory, abs_of_pos]
  have e2 : (detectOpportunity 1 0 2 5 mEmpty).1 = some ⟨Side.SHORT, Side.LONG, -3, 1⟩ := by
    norm_num [detectOpportunity, mEmpty, addSpreadToHistory, abs_of_neg]
  have h1 := ((detect_sign_correctness 1 0 5 2 mEmpty).1 (by norm_num) _ e1).1
  have h2 := ((detect_sign_correctness 1 0 2 5 mEmpty).2 (by norm_num) _ e2).2
  rw [e1, e2, Option.map_some', Option.map_some', h1, h2]
  exact ⟨rfl, rfl⟩

end Newbot
